import Mathlib

/-!
Verification of the mosdns Matcher Set subsystem
(plugin/data_provider/domain_set/domain_set.go and
plugin/data_provider/ip_set/ip_set.go) against its natural-language
specification.

The Go code is shallowly embedded: the file system and the network are an
explicit `World` value threaded through the functions, a download is a lookup
in the world's `net` table (a missing URL models a transport error or a
non-success HTTP status), and every fallible Go function returns
`Except String`.  Error strings mirror the `fmt.Errorf` format strings of the
source.  The third-party pattern-matching packages
(`pkg/matcher/domain`, `pkg/matcher/netlist`), which are part of the
repository but not under the given sources, are modelled from the spec's
black-box contract (register a pattern/prefix, test a key, report count,
keep a sort invariant).
-/

/-! ## The world: file system and network -/

/-- Association-list lookup by string key (models a Go map / registry). -/
def lookupStr {α : Type} (xs : List (String × α)) (k : String) : Option α :=
  match xs with
  | [] => none
  | (k', v) :: rest => if k' == k then some v else lookupStr rest k

/-- A file system: path to line-oriented content. -/
abbrev Fs := List (String × List String)

/-- Read a file (os.ReadFile); `none` models a read error such as ENOENT. -/
def fsRead (fs : Fs) (p : String) : Option (List String) :=
  lookupStr fs p

/-- Create/overwrite a file (os.Create + io.Copy, all-or-nothing). -/
def fsWrite (fs : Fs) (p : String) (c : List String) : Fs :=
  (p, c) :: fs.filter (fun e => e.1 != p)

/-- The world state: the local file system, the network (URL to response
body; an absent URL models a transport error or a non-200 status), and the
set of directories whose creation fails. -/
structure World where
  fs : Fs
  net : List (String × List String)
  badDirs : List String
deriving DecidableEq

/-- Split a character list on a separator character (the character-level
counterpart of strings.Split, kept structurally recursive). -/
def splitOnChar (c : Char) : List Char → List (List Char)
  | [] => [[]]
  | x :: rest =>
    match splitOnChar c rest with
    | [] => [[]]
    | g :: gs => if x == c then [] :: g :: gs else (x :: g) :: gs

/-- Join character lists with a separator character (counterpart of
strings.Join). -/
def joinChar (c : Char) : List (List Char) → List Char
  | [] => []
  | [g] => g
  | g :: gs => g ++ c :: joinChar c gs

/-- Models filepath.Dir: the path up to the last separator, "." when the
path has no separator (path cleaning is not modelled). -/
def filepathDir (p : String) : String :=
  let parts := splitOnChar '/' p.data
  if parts.length ≤ 1 then "." else ⟨joinChar '/' parts.dropLast⟩

/-- Embeds downloadFile (identical in domain_set.go and ip_set.go): one
blocking GET; on success the body is written verbatim to the local path.
The GET error and the bad-status error are collapsed into the lookup
failing; the create/write errors of the local file are not modelled
separately (the spec treats the write as all-or-nothing). -/
def downloadFile (w : World) (url path : String) : Except String World :=
  match lookupStr w.net url with
  | none => Except.error ("failed to download file: " ++ url)
  | some body => Except.ok { w with fs := fsWrite w.fs path body }

/-- Helper: is an Except a success? -/
def isOkE {α : Type} : Except String α → Bool
  | Except.ok _ => true
  | Except.error _ => false

/-- Decidable equality of results, for evaluating concrete runs. -/
instance exceptDecEq {ε α : Type} [DecidableEq ε] [DecidableEq α] :
    DecidableEq (Except ε α)
  | Except.ok a, Except.ok b =>
    if h : a = b then isTrue (by rw [h])
    else isFalse (by intro hh; cases hh; exact h rfl)
  | Except.ok _, Except.error _ => isFalse (by intro hh; cases hh)
  | Except.error _, Except.ok _ => isFalse (by intro hh; cases hh)
  | Except.error e, Except.error f =>
    if h : e = f then isTrue (by rw [h])
    else isFalse (by intro hh; cases hh; exact h rfl)

/-! ## The domain matcher (pkg/matcher/domain), modelled from the spec -/

/-- Modelled from the spec: the matching mode of a domain pattern
(section 3: "a case-normalized domain name with an associated matching mode
(exact / wildcard-suffix / regex)").  pkg/matcher/domain is outside the
given sources. -/
inductive Mode where
  | full
  | suffix
  | regexp
deriving DecidableEq, Repr

/-- Modelled from the spec: domain.MixMatcher keeps one rule collection per
matching mode; presence-only (value payload unused).  Its several internal
collections are what the Go statement `*m = *newMatcher` copies field by
field. -/
structure MixMatcher where
  full : List String
  suffix : List String
  regexp : List String
deriving DecidableEq

def emptyMix : MixMatcher := ⟨[], [], []⟩

/-- Register one parsed rule in its mode's collection. -/
def MixMatcher.addRule (m : MixMatcher) : Mode × String → MixMatcher
  | (Mode.full, p) => { m with full := m.full ++ [p] }
  | (Mode.suffix, p) => { m with suffix := m.suffix ++ [p] }
  | (Mode.regexp, p) => { m with regexp := m.regexp ++ [p] }

/-- The external expression parser of pkg/matcher/domain, abstracted: maps
an expression to its mode and pattern, or fails on a malformed expression. -/
abbrev DomainParse := String → Except String (Mode × String)

/-- Modelled from the spec: MixMatcher.Add parses the expression and
registers it; a malformed expression is an error. -/
def MixMatcher.Add (parse : DomainParse) (m : MixMatcher) (exp : String) :
    Except String MixMatcher :=
  match parse exp with
  | Except.error e => Except.error e
  | Except.ok r => Except.ok (m.addRule r)

/-- Modelled from the spec: the matcher's rule count. -/
def MixMatcher.Len (m : MixMatcher) : Nat :=
  m.full.length + m.suffix.length + m.regexp.length

/-- The matcher's whole rule collection, as (mode, pattern) pairs. -/
def MixMatcher.rules (m : MixMatcher) : List (Mode × String) :=
  m.full.map (fun p => (Mode.full, p)) ++
    m.suffix.map (fun p => (Mode.suffix, p)) ++
    m.regexp.map (fun p => (Mode.regexp, p))

/-- The black-box per-mode pattern test (exact / wildcard-suffix / regex
lookup; its internals are out of scope per the spec). -/
abbrev ModeTest := Mode → String → String → Bool

/-- Modelled from the spec: a key matches when some registered pattern of
some mode matches it. -/
def MixMatcher.Match (t : ModeTest) (m : MixMatcher) (k : String) : Bool :=
  m.full.any (fun p => t Mode.full p k) ||
    m.suffix.any (fun p => t Mode.suffix p k) ||
    m.regexp.any (fun p => t Mode.regexp p k)

/-! ## domain_set.go: loaders -/

/-- Embeds the loop of LoadExps (domain_set.go), generalized over the
starting index: each expression is Added in order; the first failure aborts
with the fmt.Errorf message "failed to load expression #%d %s, %w". -/
def LoadExpsFrom (parse : DomainParse) (i : Nat) (exps : List String)
    (m : MixMatcher) : Except String MixMatcher :=
  match exps with
  | [] => Except.ok m
  | exp :: rest =>
    match MixMatcher.Add parse m exp with
    | Except.error e =>
      Except.error ("failed to load expression #" ++ toString i ++ " " ++ exp ++ ", " ++ e)
    | Except.ok m' => LoadExpsFrom parse (i + 1) rest m'

/-- Embeds LoadExps (domain_set.go). -/
def LoadExps (parse : DomainParse) (exps : List String) (m : MixMatcher) :
    Except String MixMatcher :=
  LoadExpsFrom parse 0 exps m

/-- Modelled from the spec: domain.LoadFromTextReader hands every line of
the file to the same expression parser as inline rules (section 4.1;
comment/blank-line handling is the parser's concern and is carried by the
`parse` argument). -/
def LoadFromTextReader (parse : DomainParse) (lines : List String)
    (m : MixMatcher) : Except String MixMatcher :=
  match lines with
  | [] => Except.ok m
  | l :: rest =>
    match MixMatcher.Add parse m l with
    | Except.error e => Except.error e
    | Except.ok m' => LoadFromTextReader parse rest m'

/-- Embeds LoadFile (domain_set.go): empty path is a no-op; otherwise read
the file (propagating the read error) and feed it to the text loader. -/
def LoadFile (parse : DomainParse) (f : String) (w : World) (m : MixMatcher) :
    Except String MixMatcher :=
  if f.length > 0 then
    match fsRead w.fs f with
    | none => Except.error ("open " ++ f ++ ": no such file or directory")
    | some lines => LoadFromTextReader parse lines m
  else Except.ok m

/-- Embeds the loop of LoadFiles (domain_set.go), generalized over the
starting index; failure message "failed to load file #%d %s, %w". -/
def LoadFilesFrom (parse : DomainParse) (i : Nat) (fs : List String)
    (w : World) (m : MixMatcher) : Except String MixMatcher :=
  match fs with
  | [] => Except.ok m
  | f :: rest =>
    match LoadFile parse f w m with
    | Except.error e =>
      Except.error ("failed to load file #" ++ toString i ++ " " ++ f ++ ", " ++ e)
    | Except.ok m' => LoadFilesFrom parse (i + 1) rest w m'

/-- Embeds LoadFiles (domain_set.go). -/
def LoadFiles (parse : DomainParse) (fs : List String) (w : World)
    (m : MixMatcher) : Except String MixMatcher :=
  LoadFilesFrom parse 0 fs w m

/-- Embeds LoadExpsAndFiles (domain_set.go): expressions first, then
files. -/
def LoadExpsAndFiles (parse : DomainParse) (exps fs : List String) (w : World)
    (m : MixMatcher) : Except String MixMatcher :=
  match LoadExps parse exps m with
  | Except.error e => Except.error e
  | Except.ok m' => LoadFiles parse fs w m'

/-- Embeds the RemoteFile config record (identical in both Go files). -/
structure RemoteFile where
  URL : String
  Path : String
  Interval : Int
deriving DecidableEq

/-- Embeds LoadRemoteFile (domain_set.go): ensure the parent directory,
download only when the local file is missing, load the file (the load error
is checked in this variant), unconditionally re-download, and reload. -/
def DomainLoadRemoteFile (parse : DomainParse) (rf : RemoteFile) (w : World)
    (m : MixMatcher) : Except String (World × MixMatcher) :=
  let dir := filepathDir rf.Path
  if dir != "" && w.badDirs.contains dir then
    Except.error ("failed to create directory " ++ dir)
  else
    let dl1 : Except String World :=
      if (fsRead w.fs rf.Path).isNone then downloadFile w rf.URL rf.Path
      else Except.ok w
    match dl1 with
    | Except.error e => Except.error e
    | Except.ok w1 =>
      match LoadFile parse rf.Path w1 m with
      | Except.error e => Except.error e
      | Except.ok m1 =>
        match downloadFile w1 rf.URL rf.Path with
        | Except.error e => Except.error ("failed to update remote file: " ++ e)
        | Except.ok w2 =>
          match LoadFile parse rf.Path w2 m1 with
          | Except.error e => Except.error e
          | Except.ok m2 => Except.ok (w2, m2)

/-! ## domain_set.go: background refresh and construction -/

/-- The state a remote source's refresh task operates on: the world and the
current contents of the shared matcher that the readers' group aliases. -/
structure DomainTickState where
  w : World
  m : MixMatcher
deriving DecidableEq

/-- Embeds one iteration of the ticker loop of updateRemoteFile
(domain_set.go): build a brand-new matcher, download (on failure
`continue`), load the freshly downloaded file into the new matcher (on
failure `continue`), then execute `*m = *newMatcher`, overwriting the
shared matcher's contents with the new matcher's.  The function is total:
no error leaves the loop. -/
def domainUpdateTick (parse : DomainParse) (rf : RemoteFile)
    (st : DomainTickState) : DomainTickState :=
  match downloadFile st.w rf.URL rf.Path with
  | Except.error _ => st
  | Except.ok w1 =>
    match LoadFile parse rf.Path w1 emptyMix with
    | Except.error _ => { w := w1, m := st.m }
    | Except.ok nm => { w := w1, m := nm }

/-- The sequence of matcher values a concurrent reader of the shared
matcher can observe while the Go assignment `*m = *newMatcher`
(domain_set.go line 194) is in progress: the multiword struct copy is not
atomic, so the machine writes the per-mode collection headers one after
another and a reader may dereference between two of the writes. -/
def installStates (old nw : MixMatcher) : List MixMatcher :=
  [old,
   { old with full := nw.full },
   { full := nw.full, suffix := nw.suffix, regexp := old.regexp },
   nw]

/-- An element of DomainSet.mg: either the locally built MixMatcher or an
external matcher obtained from a referenced provider. -/
inductive DMatcher where
  | mix (m : MixMatcher)
  | ext (f : String → Bool)

/-- Matching one group element. -/
def DMatcher.Match (t : ModeTest) : DMatcher → String → Bool
  | DMatcher.mix m, k => MixMatcher.Match t m k
  | DMatcher.ext f, k => f k

/-- Embeds the Args record of domain_set.go. -/
structure DomainArgs where
  Exps : List String
  Sets : List String
  Files : List String
  RemoteFiles : List RemoteFile

/-- Embeds the remote-files loop of NewDomainSet: each failure is wrapped
as "failed to load remote file %s: %w".  (The goroutine started for a
non-zero interval is modelled separately by domainUpdateTick.) -/
def domainRemoteLoop (parse : DomainParse) :
    List RemoteFile → World → MixMatcher → Except String (World × MixMatcher)
  | [], w, m => Except.ok (w, m)
  | rf :: rest, w, m =>
    match DomainLoadRemoteFile parse rf w m with
    | Except.error e =>
      Except.error ("failed to load remote file " ++ rf.URL ++ ": " ++ e)
    | Except.ok (w1, m1) => domainRemoteLoop parse rest w1 m1

/-- Embeds the Sets loop of NewDomainSet: resolve each tag in the registry;
a missing tag or a plugin without the capability fails with
"%s is not a DomainMatcherProvider". -/
def domainSetsLoop (registry : List (String × (String → Bool))) :
    List String → List DMatcher → Except String (List DMatcher)
  | [], mg => Except.ok mg
  | tag :: rest, mg =>
    match lookupStr registry tag with
    | none => Except.error (tag ++ " is not a DomainMatcherProvider")
    | some f => domainSetsLoop registry rest (mg ++ [DMatcher.ext f])

/-- Embeds NewDomainSet (domain_set.go): load expressions and files into
one MixMatcher, run the remote-file protocol on the same matcher, append
the matcher to the group when non-empty, then append each referenced
provider.  Returns the final world, the shared matcher the refresh tasks
alias, and the composed group. -/
def NewDomainSet (parse : DomainParse)
    (registry : List (String × (String → Bool))) (args : DomainArgs)
    (w : World) : Except String (World × MixMatcher × List DMatcher) :=
  match LoadExpsAndFiles parse args.Exps args.Files w emptyMix with
  | Except.error e => Except.error e
  | Except.ok m0 =>
    match domainRemoteLoop parse args.RemoteFiles w m0 with
    | Except.error e => Except.error e
    | Except.ok (w1, m1) =>
      let mg0 := if m1.Len > 0 then [DMatcher.mix m1] else []
      match domainSetsLoop registry args.Sets mg0 with
      | Except.error e => Except.error e
      | Except.ok mg => Except.ok (w1, m1, mg)

/-! ## ip_set.go: prefixes and the netlist (pkg/matcher/netlist) -/

/-- An IP network: the address value as written (not masked) and the
number of leading bits.  The modelled fragment is IPv4 (the keys of every
claim); addresses are naturals below 2^32.  Models netip.Prefix. -/
structure IpPfx where
  addr : Nat
  bits : Nat
deriving DecidableEq, Repr

/-- Models netip.Prefix.Contains on the IPv4 fragment: the candidate and
the network address agree on the leading `bits` bits. -/
def pfxContains (p : IpPfx) (x : Nat) : Bool :=
  x / 2 ^ (32 - p.bits) == p.addr / 2 ^ (32 - p.bits)

/-- Models Go's decimal parsing as used by netip: non-empty, digits only,
no leading zero, value returned as a natural. -/
def parseDecimal (cs : List Char) : Option Nat :=
  if cs ≠ [] ∧ cs.all (fun c => c.isDigit) ∧ (cs.length = 1 ∨ cs.head? ≠ some '0') then
    some (cs.foldl (fun n c => n * 10 + (c.toNat - 48)) 0)
  else none

/-- Models netip.ParseAddr on the IPv4 fragment: four dotted decimal
octets, each at most 255. -/
def parseIPv4 (s : String) : Option Nat :=
  match splitOnChar '.' s.data with
  | [a, b, c, d] =>
    match parseDecimal a, parseDecimal b, parseDecimal c, parseDecimal d with
    | some a, some b, some c, some d =>
      if a ≤ 255 ∧ b ≤ 255 ∧ c ≤ 255 ∧ d ≤ 255 then
        some (((a * 256 + b) * 256 + c) * 256 + d)
      else none
    | _, _, _, _ => none
  | _ => none

/-- Models netip.ParsePrefix on the IPv4 fragment: "addr/len" with
0 ≤ len ≤ 32; the address bits are kept as written (netip does not mask
them on parse). -/
def parseIPv4Pfx (s : String) : Option IpPfx :=
  match splitOnChar '/' s.data with
  | [a, l] =>
    match parseIPv4 ⟨a⟩, parseDecimal l with
    | some ad, some n => if n ≤ 32 then some ⟨ad, n⟩ else none
    | _, _ => none
  | _ => none

/-- Embeds parseNetipPrefix (ip_set.go; the name is shortened here): a
string containing a slash is parsed as a CIDR; otherwise it is parsed as a
bare address and normalized to the full-length host network via
addr.Prefix(addr.BitLen()), which on IPv4 is 32 bits. -/
def parseNetipPfx (s : String) : Except String IpPfx :=
  if s.data.contains '/' then
    match parseIPv4Pfx s with
    | some p => Except.ok p
    | none => Except.error ("netip.ParsePrefix(" ++ s ++ "): invalid")
  else
    match parseIPv4 s with
    | some a => Except.ok ⟨a, 32⟩
    | none => Except.error ("ParseAddr(" ++ s ++ "): invalid")

/-- Modelled from the spec: netlist.List, the black-box sorted-network
collection (pkg/matcher/netlist is outside the given sources): register a
network, report count, restore the sort invariant after bulk mutation,
test a key. -/
structure NetList where
  networks : List IpPfx
deriving DecidableEq

/-- Models netlist.NewList. -/
def NetList.new : NetList := ⟨[]⟩

/-- Models netlist.List.Append. -/
def NetList.Append (l : NetList) (p : IpPfx) : NetList :=
  ⟨l.networks ++ [p]⟩

/-- Models netlist.List.Len. -/
def NetList.Len (l : NetList) : Nat := l.networks.length

/-- Order used by the sort invariant: by address value, then by length. -/
def pfxLe (p q : IpPfx) : Bool :=
  p.addr < q.addr || (p.addr == q.addr && p.bits ≤ q.bits)

/-- Ordered insertion (helper for the modelled sort). -/
def insertPfx (p : IpPfx) : List IpPfx → List IpPfx
  | [] => [p]
  | q :: rest => if pfxLe p q then p :: q :: rest else q :: insertPfx p rest

/-- Insertion sort of networks (helper for the modelled sort). -/
def sortPfxs : List IpPfx → List IpPfx
  | [] => []
  | p :: rest => insertPfx p (sortPfxs rest)

/-- Models netlist.List.Sort: restore the sort invariant; membership
semantics is unchanged (sorting only enables the lookup algorithm). -/
def NetList.Sort (l : NetList) : NetList := ⟨sortPfxs l.networks⟩

/-- Models netlist.List.Match: the address belongs to some registered
network. -/
def NetList.Match (l : NetList) (x : Nat) : Bool :=
  l.networks.any (fun p => pfxContains p x)

/-- Modelled from the spec: netlist.LoadFromReader parses every line as an
address or CIDR and appends it, line-oriented; it returns the first
failure, and the networks appended before the failing line remain in the
list (the Go list is mutated in place).  The result is the partially
updated list together with the error, if any. -/
def netlistLoadLines (lines : List String) (l : NetList) :
    NetList × Option String :=
  match lines with
  | [] => (l, none)
  | s :: rest =>
    match parseNetipPfx s with
    | Except.error e => (l, some e)
    | Except.ok p => netlistLoadLines rest (l.Append p)

/-! ## ip_set.go: loaders -/

/-- Embeds LoadFromFile (ip_set.go): empty path is a no-op; otherwise read
the file and feed it to netlist.LoadFromReader.  The pair keeps both the
in-place mutation of the list and the returned error. -/
def IpLoadFromFile (f : String) (w : World) (l : NetList) :
    NetList × Option String :=
  if f.length > 0 then
    match fsRead w.fs f with
    | none => (l, some ("open " ++ f ++ ": no such file or directory"))
    | some lines => netlistLoadLines lines l
  else (l, none)

/-- Embeds the loop of LoadFromIPs (ip_set.go), generalized over the
starting index: parse each literal and append; the first failure aborts
with the fmt.Errorf message "invalid ip #%d %s, %w". -/
def LoadFromIPsFrom (i : Nat) (ips : List String) (l : NetList) :
    Except String NetList :=
  match ips with
  | [] => Except.ok l
  | s :: rest =>
    match parseNetipPfx s with
    | Except.error e =>
      Except.error ("invalid ip #" ++ toString i ++ " " ++ s ++ ", " ++ e)
    | Except.ok p => LoadFromIPsFrom (i + 1) rest (l.Append p)

/-- Embeds LoadFromIPs (ip_set.go). -/
def LoadFromIPs (ips : List String) (l : NetList) : Except String NetList :=
  LoadFromIPsFrom 0 ips l

/-- Embeds the loop of LoadFromFiles (ip_set.go), generalized over the
starting index; failure message "failed to load file #%d %s, %w". -/
def IpLoadFromFilesFrom (i : Nat) (fs : List String) (w : World)
    (l : NetList) : Except String NetList :=
  match fs with
  | [] => Except.ok l
  | f :: rest =>
    match IpLoadFromFile f w l with
    | (_, some e) =>
      Except.error ("failed to load file #" ++ toString i ++ " " ++ f ++ ", " ++ e)
    | (l1, none) => IpLoadFromFilesFrom (i + 1) rest w l1

/-- Embeds LoadFromFiles (ip_set.go). -/
def IpLoadFromFiles (fs : List String) (w : World) (l : NetList) :
    Except String NetList :=
  IpLoadFromFilesFrom 0 fs w l

/-- Embeds LoadFromIPsAndFiles (ip_set.go). -/
def LoadFromIPsAndFiles (ips fs : List String) (w : World) (l : NetList) :
    Except String NetList :=
  match LoadFromIPs ips l with
  | Except.error e => Except.error e
  | Except.ok l' => IpLoadFromFiles fs w l'

/-- Embeds LoadFromRemoteFile (ip_set.go): same protocol as the domain
variant, except that the error of the initial load (line 174,
`LoadFromFile(rf.Path, l)`) is discarded — only the list's in-place
mutation survives — and the second download's error is returned
unwrapped. -/
def IpLoadFromRemoteFile (rf : RemoteFile) (w : World) (l : NetList) :
    Except String (World × NetList) :=
  let dir := filepathDir rf.Path
  if dir != "" && w.badDirs.contains dir then
    Except.error ("failed to create directory " ++ dir)
  else
    let dl1 : Except String World :=
      if (fsRead w.fs rf.Path).isNone then downloadFile w rf.URL rf.Path
      else Except.ok w
    match dl1 with
    | Except.error e => Except.error e
    | Except.ok w1 =>
      match IpLoadFromFile rf.Path w1 l with
      | (l1, _) =>
        match downloadFile w1 rf.URL rf.Path with
        | Except.error e => Except.error e
        | Except.ok w2 =>
          match IpLoadFromFile rf.Path w2 l1 with
          | (l2, none) => Except.ok (w2, l2)
          | (_, some e) => Except.error e

/-! ## ip_set.go: background refresh, group and construction -/

/-- The state a remote source's refresh task operates on (IP variant). -/
structure IpTickState where
  w : World
  l : NetList
deriving DecidableEq

/-- Embeds one iteration of the ticker loop of updateRemoteFile
(ip_set.go): new list, download (`continue` on failure), load
(`continue` on failure), Sort, then `*l = *newList`. -/
def ipUpdateTick (rf : RemoteFile) (st : IpTickState) : IpTickState :=
  match downloadFile st.w rf.URL rf.Path with
  | Except.error _ => st
  | Except.ok w1 =>
    match IpLoadFromFile rf.Path w1 NetList.new with
    | (_, some _) => { w := w1, l := st.l }
    | (nl, none) => { w := w1, l := nl.Sort }

/-- An element of IPSet.mg: either the locally built netlist or an external
matcher obtained from a referenced provider.  Models netlist.Matcher. -/
inductive IMatcher where
  | list (l : NetList)
  | ext (f : Nat → Bool)

/-- Matching one group element. -/
def IMatcher.Match : IMatcher → Nat → Bool
  | IMatcher.list l, x => l.Match x
  | IMatcher.ext f, x => f x

/-- Embeds MatcherGroup.Match (ip_set.go lines 229-236): walk the group in
order and return true at the first member that matches; false after the
last member. -/
def MatcherGroupMatch : List IMatcher → Nat → Bool
  | [], _ => false
  | m :: rest, x => if m.Match x then true else MatcherGroupMatch rest x

/-- Embeds the Args record of ip_set.go. -/
structure IpArgs where
  IPs : List String
  Sets : List String
  Files : List String
  RemoteFiles : List RemoteFile

/-- Embeds the remote-files loop of NewIPSet; failures wrapped as
"failed to load remote file %s: %w". -/
def ipRemoteLoop :
    List RemoteFile → World → NetList → Except String (World × NetList)
  | [], w, l => Except.ok (w, l)
  | rf :: rest, w, l =>
    match IpLoadFromRemoteFile rf w l with
    | Except.error e =>
      Except.error ("failed to load remote file " ++ rf.URL ++ ": " ++ e)
    | Except.ok (w1, l1) => ipRemoteLoop rest w1 l1

/-- Embeds the Sets loop of NewIPSet; a missing tag or a plugin without the
capability fails with "%s is not an IPMatcherProvider". -/
def ipSetsLoop (registry : List (String × (Nat → Bool))) :
    List String → List IMatcher → Except String (List IMatcher)
  | [], mg => Except.ok mg
  | tag :: rest, mg =>
    match lookupStr registry tag with
    | none => Except.error (tag ++ " is not an IPMatcherProvider")
    | some f => ipSetsLoop registry rest (mg ++ [IMatcher.ext f])

/-- Embeds NewIPSet (ip_set.go): load literals and files into one list,
run the remote-file protocol on the same list, Sort it, append it to the
group when non-empty, then append each referenced provider. -/
def NewIPSet (registry : List (String × (Nat → Bool))) (args : IpArgs)
    (w : World) : Except String (World × NetList × List IMatcher) :=
  match LoadFromIPsAndFiles args.IPs args.Files w NetList.new with
  | Except.error e => Except.error e
  | Except.ok l0 =>
    match ipRemoteLoop args.RemoteFiles w l0 with
    | Except.error e => Except.error e
    | Except.ok (w1, l1) =>
      let l2 := l1.Sort
      let mg0 := if l2.Len > 0 then [IMatcher.list l2] else []
      match ipSetsLoop registry args.Sets mg0 with
      | Except.error e => Except.error e
      | Except.ok mg => Except.ok (w1, l2, mg)

/-! ## Concrete instances of the black-box parameters

The expression parser and the per-mode pattern test are capabilities of the
excluded pattern-matching packages; the fixtures below are one concrete
instance of each, used to evaluate the embedded code on concrete inputs. -/

/-- A concrete domain expression parser: one malformed expression ("#bad"),
one wildcard-suffix expression, everything else a full-match pattern. -/
def mixParse : DomainParse := fun s =>
  if s = "#bad" then Except.error ("unsupported pattern: " ++ s)
  else if s = "*.b.com" then Except.ok (Mode.suffix, "b.com")
  else Except.ok (Mode.full, s)

/-- A concrete per-mode pattern test: literal equality in every mode. -/
def eqTest : ModeTest := fun _ p k => p == k

/-! ## Claims about the installation of a refreshed matcher -/

/-- Claim C1.  The claim states that installing a refreshed matcher is an
indivisible reference swap and that a concurrent reader never observes a
partially overwritten rule collection.  The code contradicts it:
updateRemoteFile ends with the assignment `*m = *newMatcher`
(domain_set.go line 194, ip_set.go line 198), which overwrites the
contents of the matcher shared with every reader, field by field, instead
of swapping a reference.  At the concrete input below, the tick computes
the new matcher ⟨[], ["b.com"], []⟩ and writes it over the shared matcher
⟨["a.com"], [], []⟩; the write path passes through the intermediate value
⟨[], [], []⟩, which differs from both the pre-refresh and the post-refresh
matcher and answers match() inconsistently with both (it matches neither
"a.com", which the old matcher matches, nor "b.com", which the new one
matches). -/
theorem C1_install_overwrites_shared_matcher_in_place :
    (domainUpdateTick mixParse ⟨"u", "d/f", 1⟩
        ⟨⟨[("d/f", ["a.com"])], [("u", ["*.b.com"])], []⟩, ⟨["a.com"], [], []⟩⟩).m =
      ⟨[], ["b.com"], []⟩ ∧
    installStates ⟨["a.com"], [], []⟩ ⟨[], ["b.com"], []⟩ =
      [⟨["a.com"], [], []⟩, ⟨[], [], []⟩, ⟨[], ["b.com"], []⟩, ⟨[], ["b.com"], []⟩] ∧
    (⟨[], [], []⟩ : MixMatcher) ≠ ⟨["a.com"], [], []⟩ ∧
    (⟨[], [], []⟩ : MixMatcher) ≠ ⟨[], ["b.com"], []⟩ ∧
    MixMatcher.Match eqTest ⟨["a.com"], [], []⟩ "a.com" = true ∧
    MixMatcher.Match eqTest ⟨[], ["b.com"], []⟩ "b.com" = true ∧
    MixMatcher.Match eqTest ⟨[], [], []⟩ "a.com" = false ∧
    MixMatcher.Match eqTest ⟨[], [], []⟩ "b.com" = false := by
  refine ⟨by decide, by decide, by decide, by decide, by decide, by decide, by decide, by decide⟩

/-- Claim C2.  The claim states that the matcher built at construction from
the inline expressions and local files is never mutated afterwards: every
such rule stays a member across background refresh ticks.  The code
contradicts it: NewDomainSet loads the inline expressions and every remote
file into one shared MixMatcher, and updateRemoteFile's `*m = *newMatcher`
replaces that matcher's whole contents with a matcher rebuilt from the
remote file alone.  At the concrete input below (inline expression
"a.com", one remote file with refresh interval 1 whose body is
"*.b.com"), construction produces a matcher containing the full-match rule
"a.com", and after one successful refresh tick that rule is gone. -/
theorem C2_static_rules_lost_after_refresh_tick :
    NewDomainSet mixParse [] ⟨["a.com"], [], [], [⟨"u", "d/f", 1⟩]⟩
        ⟨[], [("u", ["*.b.com"])], []⟩ =
      Except.ok (⟨[("d/f", ["*.b.com"])], [("u", ["*.b.com"])], []⟩,
        ⟨["a.com"], ["b.com", "b.com"], []⟩,
        [DMatcher.mix ⟨["a.com"], ["b.com", "b.com"], []⟩]) ∧
    (Mode.full, "a.com") ∈ (MixMatcher.mk ["a.com"] ["b.com", "b.com"] []).rules ∧
    (domainUpdateTick mixParse ⟨"u", "d/f", 1⟩
        ⟨⟨[("d/f", ["*.b.com"])], [("u", ["*.b.com"])], []⟩,
          ⟨["a.com"], ["b.com", "b.com"], []⟩⟩).m = ⟨[], ["b.com"], []⟩ ∧
    (Mode.full, "a.com") ∉ (MixMatcher.mk [] ["b.com"] []).rules := by
  refine ⟨rfl, by decide, by decide, by decide⟩

/-- Claim C3.  The claim states that in both variants any failure while
reading or parsing the local file during the construction-time load
sequence is fatal.  The domain variant is (its initial LoadFile error is
returned), but the IP variant contradicts it: ip_set.go line 174 calls
`LoadFromFile(rf.Path, l)` and discards the returned error.  At the
concrete input below the pre-existing local copy is the unparsable line
"notanip": the initial load fails, yet the IP construction succeeds with
the matcher built from the freshly downloaded content alone, while the
domain construction at the analogous input fails. -/
theorem C3_ip_variant_ignores_initial_load_error :
    (IpLoadFromFile "d/f" ⟨[("d/f", ["notanip"])], [("u", ["1.2.3.0/24"])], []⟩
        NetList.new).2.isSome = true ∧
    IpLoadFromRemoteFile ⟨"u", "d/f", 0⟩
        ⟨[("d/f", ["notanip"])], [("u", ["1.2.3.0/24"])], []⟩ NetList.new =
      Except.ok (⟨[("d/f", ["1.2.3.0/24"])], [("u", ["1.2.3.0/24"])], []⟩,
        ⟨[⟨16909056, 24⟩]⟩) ∧
    isOkE (DomainLoadRemoteFile mixParse ⟨"u", "d/f", 0⟩
        ⟨[("d/f", ["#bad"])], [("u", ["c.com"])], []⟩ emptyMix) = false := by
  refine ⟨by decide, by decide, by decide⟩

/-! ## Helper lemmas -/

theorem fsRead_fsWrite (fs : Fs) (p : String) (c : List String) :
    fsRead (fsWrite fs p c) p = some c := by
  simp [fsRead, fsWrite, lookupStr]

theorem addRule_mem (m : MixMatcher) (r x : Mode × String) :
    x ∈ (m.addRule r).rules ↔ x ∈ m.rules ∨ x = r := by
  obtain ⟨mo, p⟩ := r
  cases mo <;> cases x <;>
    simp [MixMatcher.addRule, MixMatcher.rules] <;> tauto

theorem ltr_mem (parse : DomainParse) (lines : List String) :
    ∀ (m m' : MixMatcher), LoadFromTextReader parse lines m = Except.ok m' →
      ∀ x, x ∈ m'.rules ↔ x ∈ m.rules ∨ ∃ l ∈ lines, parse l = Except.ok x := by
  induction lines with
  | nil =>
    intro m m' h x
    simp [LoadFromTextReader] at h
    subst h
    simp
  | cons l rest ih =>
    intro m m' h x
    rw [LoadFromTextReader] at h
    cases hadd : MixMatcher.Add parse m l with
    | error e => rw [hadd] at h; cases h
    | ok m1 =>
      rw [hadd] at h
      have := ih m1 m' h x
      rw [this]
      rw [MixMatcher.Add] at hadd
      cases hp : parse l with
      | error e => rw [hp] at hadd; cases hadd
      | ok r =>
        rw [hp] at hadd
        cases hadd
        rw [addRule_mem]
        constructor
        · rintro (⟨h1 | h2⟩ | ⟨l', hl', hpl'⟩)
          · exact Or.inl h1
          · subst h2; exact Or.inr ⟨l, by simp, hp⟩
          · exact Or.inr ⟨l', by simp [hl'], hpl'⟩
        · rintro (h1 | ⟨l', hl', hpl'⟩)
          · exact Or.inl (Or.inl h1)
          · rcases List.mem_cons.mp hl' with h2 | h2
            · subst h2
              rw [hp] at hpl'
              cases hpl'
              exact Or.inl (Or.inr rfl)
            · exact Or.inr ⟨l', h2, hpl'⟩

theorem netlistLoadLines_ok (lines : List String) :
    ∀ (l l' : NetList), netlistLoadLines lines l = (l', none) →
      l'.networks = l.networks ++
        lines.filterMap (fun s => (parseNetipPfx s).toOption) := by
  induction lines with
  | nil =>
    intro l l' h
    simp [netlistLoadLines] at h
    subst h
    simp
  | cons s rest ih =>
    intro l l' h
    rw [netlistLoadLines] at h
    cases hp : parseNetipPfx s with
    | error e => rw [hp] at h; cases h
    | ok p =>
      rw [hp] at h
      have := ih (l.Append p) l' h
      rw [this]
      simp [NetList.Append, hp, Except.toOption]

theorem domain_remote_existing_ok (parse : DomainParse) (rf : RemoteFile)
    (w : World) (m m1 m2 : MixMatcher) (oldLines newBody : List String)
    (hbd : w.badDirs.contains (filepathDir rf.Path) = false)
    (hlen : rf.Path.length > 0)
    (hex : fsRead w.fs rf.Path = some oldLines)
    (hnet : lookupStr w.net rf.URL = some newBody)
    (h1 : LoadFromTextReader parse oldLines m = Except.ok m1)
    (h2 : LoadFromTextReader parse newBody m1 = Except.ok m2) :
    DomainLoadRemoteFile parse rf w m =
      Except.ok ({ w with fs := fsWrite w.fs rf.Path newBody }, m2) := by
  simp only [DomainLoadRemoteFile, hbd, Bool.and_false, Bool.false_eq_true, if_false, hex,
    Option.isNone_some, LoadFile, if_pos hlen, downloadFile, hnet, fsRead_fsWrite, h1, h2]

theorem domain_remote_redownload_fail (parse : DomainParse) (rf : RemoteFile)
    (w : World) (m : MixMatcher) (oldLines : List String)
    (hbd : w.badDirs.contains (filepathDir rf.Path) = false)
    (hex : fsRead w.fs rf.Path = some oldLines)
    (hnet : lookupStr w.net rf.URL = none) :
    isOkE (DomainLoadRemoteFile parse rf w m) = false := by
  simp only [DomainLoadRemoteFile, hbd, Bool.and_false, Bool.false_eq_true, if_false, hex,
    Option.isNone_some, downloadFile, hnet]
  cases h : LoadFile parse rf.Path w m
  all_goals simp [isOkE]

theorem ip_remote_existing_ok (rf : RemoteFile)
    (w : World) (l l1 l2 : NetList) (oldLines newBody : List String)
    (e1 : Option String)
    (hbd : w.badDirs.contains (filepathDir rf.Path) = false)
    (hlen : rf.Path.length > 0)
    (hex : fsRead w.fs rf.Path = some oldLines)
    (hnet : lookupStr w.net rf.URL = some newBody)
    (h1 : netlistLoadLines oldLines l = (l1, e1))
    (h2 : netlistLoadLines newBody l1 = (l2, none)) :
    IpLoadFromRemoteFile rf w l =
      Except.ok ({ w with fs := fsWrite w.fs rf.Path newBody }, l2) := by
  simp only [IpLoadFromRemoteFile, hbd, Bool.and_false, Bool.false_eq_true, if_false, hex,
    Option.isNone_some, IpLoadFromFile, if_pos hlen, downloadFile, hnet, fsRead_fsWrite, h1, h2]

theorem ip_remote_redownload_fail (rf : RemoteFile)
    (w : World) (l : NetList) (oldLines : List String)
    (hbd : w.badDirs.contains (filepathDir rf.Path) = false)
    (hex : fsRead w.fs rf.Path = some oldLines)
    (hnet : lookupStr w.net rf.URL = none) :
    isOkE (IpLoadFromRemoteFile rf w l) = false := by
  simp only [IpLoadFromRemoteFile, hbd, Bool.and_false, Bool.false_eq_true, if_false, hex,
    Option.isNone_some, downloadFile, hnet]
  cases h : IpLoadFromFile rf.Path w l
  all_goals simp [isOkE]

theorem MGM_any (mg : List IMatcher) (x : Nat) :
    MatcherGroupMatch mg x = mg.any (fun m => m.Match x) := by
  induction mg with
  | nil => rfl
  | cons m rest ih =>
    rw [MatcherGroupMatch, List.any_cons]
    cases h : m.Match x <;> simp [h, ih]

theorem LoadExpsFrom_append (parse : DomainParse) (pre : List String) :
    ∀ (i : Nat) (m m1 : MixMatcher), LoadExpsFrom parse i pre m = Except.ok m1 →
      ∀ (exp : String) (suf : List String) (c : String), parse exp = Except.error c →
        LoadExpsFrom parse i (pre ++ exp :: suf) m =
          Except.error ("failed to load expression #" ++ toString (i + pre.length) ++
            " " ++ exp ++ ", " ++ c) := by
  induction pre with
  | nil =>
    intro i m m1 _ exp suf c hc
    simp [LoadExpsFrom, MixMatcher.Add, hc]
  | cons e pre ih =>
    intro i m m1 h exp suf c hc
    rw [LoadExpsFrom] at h
    cases ha : MixMatcher.Add parse m e with
    | error er => rw [ha] at h; cases h
    | ok m' =>
      rw [ha] at h
      have hrec := ih (i + 1) m' m1 h exp suf c hc
      simp only [List.cons_append, LoadExpsFrom, ha, List.length_cons, List.append_eq]
      rw [hrec]
      have heq : i + 1 + pre.length = i + (pre.length + 1) := by omega
      rw [heq]

theorem LoadFromIPsFrom_append (pre : List String) :
    ∀ (i : Nat) (l l1 : NetList), LoadFromIPsFrom i pre l = Except.ok l1 →
      ∀ (s : String) (suf : List String) (c : String), parseNetipPfx s = Except.error c →
        LoadFromIPsFrom i (pre ++ s :: suf) l =
          Except.error ("invalid ip #" ++ toString (i + pre.length) ++
            " " ++ s ++ ", " ++ c) := by
  induction pre with
  | nil =>
    intro i l l1 _ s suf c hc
    simp [LoadFromIPsFrom, hc]
  | cons e pre ih =>
    intro i l l1 h s suf c hc
    rw [LoadFromIPsFrom] at h
    cases ha : parseNetipPfx e with
    | error er => rw [ha] at h; cases h
    | ok p =>
      rw [ha] at h
      have hrec := ih (i + 1) (l.Append p) l1 h s suf c hc
      simp only [List.cons_append, LoadFromIPsFrom, ha, List.length_cons, List.append_eq]
      rw [hrec]
      have heq : i + 1 + pre.length = i + (pre.length + 1) := by omega
      rw [heq]

/-! ## Claims about the construction-time remote-file protocol -/

/-- Claim C4.  For a remote source whose local file already exists at
construction, both variants load the existing copy, unconditionally
re-download the remote file overwriting the local copy, and reload it;
rules accumulate additively across both loads (the matcher is never
cleared), and a failure of the mandatory re-download makes construction
fail.  The four conjuncts are: the domain success shape with the
accumulated rule membership, the domain re-download failure, the IP
success shape with the accumulated networks, and the IP re-download
failure. -/
theorem C4_existing_local_file_protocol :
    (∀ (parse : DomainParse) (rf : RemoteFile) (w : World)
       (m m1 m2 : MixMatcher) (oldLines newBody : List String),
       w.badDirs.contains (filepathDir rf.Path) = false →
       rf.Path.length > 0 →
       fsRead w.fs rf.Path = some oldLines →
       lookupStr w.net rf.URL = some newBody →
       LoadFromTextReader parse oldLines m = Except.ok m1 →
       LoadFromTextReader parse newBody m1 = Except.ok m2 →
       DomainLoadRemoteFile parse rf w m =
         Except.ok ({ w with fs := fsWrite w.fs rf.Path newBody }, m2) ∧
       (∀ x, x ∈ m2.rules ↔ x ∈ m.rules ∨
          (∃ l ∈ oldLines, parse l = Except.ok x) ∨
          (∃ l ∈ newBody, parse l = Except.ok x))) ∧
    (∀ (parse : DomainParse) (rf : RemoteFile) (w : World)
       (m : MixMatcher) (oldLines : List String),
       w.badDirs.contains (filepathDir rf.Path) = false →
       fsRead w.fs rf.Path = some oldLines →
       lookupStr w.net rf.URL = none →
       isOkE (DomainLoadRemoteFile parse rf w m) = false) ∧
    (∀ (rf : RemoteFile) (w : World) (l l1 l2 : NetList)
       (oldLines newBody : List String),
       w.badDirs.contains (filepathDir rf.Path) = false →
       rf.Path.length > 0 →
       fsRead w.fs rf.Path = some oldLines →
       lookupStr w.net rf.URL = some newBody →
       netlistLoadLines oldLines l = (l1, none) →
       netlistLoadLines newBody l1 = (l2, none) →
       IpLoadFromRemoteFile rf w l =
         Except.ok ({ w with fs := fsWrite w.fs rf.Path newBody }, l2) ∧
       l2.networks = l.networks ++
         oldLines.filterMap (fun s => (parseNetipPfx s).toOption) ++
         newBody.filterMap (fun s => (parseNetipPfx s).toOption)) ∧
    (∀ (rf : RemoteFile) (w : World) (l : NetList) (oldLines : List String),
       w.badDirs.contains (filepathDir rf.Path) = false →
       fsRead w.fs rf.Path = some oldLines →
       lookupStr w.net rf.URL = none →
       isOkE (IpLoadFromRemoteFile rf w l) = false) := by
  refine ⟨?_, ?_, ?_, ?_⟩
  · intro parse rf w m m1 m2 oldLines newBody hbd hlen hex hnet h1 h2
    refine ⟨domain_remote_existing_ok parse rf w m m1 m2 oldLines newBody hbd hlen hex hnet h1 h2, ?_⟩
    intro x
    rw [ltr_mem parse newBody m1 m2 h2 x, ltr_mem parse oldLines m m1 h1 x, or_assoc]
  · exact domain_remote_redownload_fail
  · intro rf w l l1 l2 oldLines newBody hbd hlen hex hnet h1 h2
    refine ⟨ip_remote_existing_ok rf w l l1 l2 oldLines newBody none hbd hlen hex hnet h1 h2, ?_⟩
    rw [netlistLoadLines_ok newBody l1 l2 h2, netlistLoadLines_ok oldLines l l1 h1]
  · exact ip_remote_redownload_fail

/-- Witness for C4: concrete runs of both variants, in the success shape
(stale local copy plus fresh remote body, rules accumulating) and in the
re-download-failure shape (URL "v" absent from the network). -/
theorem C4_existing_local_file_protocol_witness :
    DomainLoadRemoteFile mixParse ⟨"u", "d/f", 0⟩
        ⟨[("d/f", ["a.com"])], [("u", ["c.com"])], []⟩ emptyMix =
      Except.ok (⟨fsWrite [("d/f", ["a.com"])] "d/f" ["c.com"],
        [("u", ["c.com"])], []⟩,
        ⟨["a.com", "c.com"], [], []⟩) ∧
    isOkE (DomainLoadRemoteFile mixParse ⟨"v", "d/f", 0⟩
        ⟨[("d/f", ["a.com"])], [("u", ["c.com"])], []⟩ emptyMix) = false ∧
    IpLoadFromRemoteFile ⟨"u", "d/f", 0⟩
        ⟨[("d/f", ["10.0.0.0/8"])], [("u", ["1.2.3.0/24"])], []⟩ NetList.new =
      Except.ok (⟨fsWrite [("d/f", ["10.0.0.0/8"])] "d/f" ["1.2.3.0/24"],
        [("u", ["1.2.3.0/24"])], []⟩,
        ⟨[⟨167772160, 8⟩, ⟨16909056, 24⟩]⟩) ∧
    isOkE (IpLoadFromRemoteFile ⟨"v", "d/f", 0⟩
        ⟨[("d/f", ["10.0.0.0/8"])], [("u", ["1.2.3.0/24"])], []⟩ NetList.new) = false := by
  refine ⟨?_, ?_, ?_, ?_⟩
  · exact (C4_existing_local_file_protocol.1 mixParse ⟨"u", "d/f", 0⟩ _ emptyMix ⟨["a.com"], [], []⟩
      ⟨["a.com", "c.com"], [], []⟩ ["a.com"] ["c.com"]
      (by decide) (by decide) (by decide) (by decide) (by decide) (by decide)).1
  · exact C4_existing_local_file_protocol.2.1 mixParse ⟨"v", "d/f", 0⟩ _ emptyMix ["a.com"]
      (by decide) (by decide) (by decide)
  · exact (C4_existing_local_file_protocol.2.2.1 ⟨"u", "d/f", 0⟩ _ NetList.new ⟨[⟨167772160, 8⟩]⟩
      ⟨[⟨167772160, 8⟩, ⟨16909056, 24⟩]⟩ ["10.0.0.0/8"] ["1.2.3.0/24"]
      (by decide) (by decide) (by decide) (by decide) (by decide) (by decide)).1
  · exact C4_existing_local_file_protocol.2.2.2 ⟨"v", "d/f", 0⟩ _ NetList.new ["10.0.0.0/8"]
      (by decide) (by decide) (by decide)

/-! ## Claims about the background refresh tick -/

/-- Claim C5.  A background refresh tick whose download fails, or whose
load of the freshly downloaded file fails, is abandoned without installing
anything: the live matcher is exactly the one live before the tick (on a
download failure even the world is untouched), and the live matcher
changes only when both the download and the load succeed, in which case
the installed value is exactly the newly built matcher (Sorted first, in
the IP variant).  No error is propagated: the tick functions are total and
return a state, never an error.  The six conjuncts are download-failure,
load-failure and change-only-on-success for the domain variant, then the
same three for the IP variant. -/
theorem C5_failed_tick_abandoned :
    (∀ (parse : DomainParse) (rf : RemoteFile) (st : DomainTickState),
       lookupStr st.w.net rf.URL = none → domainUpdateTick parse rf st = st) ∧
    (∀ (parse : DomainParse) (rf : RemoteFile) (st : DomainTickState) (w1 : World),
       downloadFile st.w rf.URL rf.Path = Except.ok w1 →
       isOkE (LoadFile parse rf.Path w1 emptyMix) = false →
       (domainUpdateTick parse rf st).m = st.m) ∧
    (∀ (parse : DomainParse) (rf : RemoteFile) (st : DomainTickState),
       (domainUpdateTick parse rf st).m ≠ st.m →
       ∃ (w1 : World) (nm : MixMatcher),
         downloadFile st.w rf.URL rf.Path = Except.ok w1 ∧
         LoadFile parse rf.Path w1 emptyMix = Except.ok nm ∧
         domainUpdateTick parse rf st = ⟨w1, nm⟩) ∧
    (∀ (rf : RemoteFile) (st : IpTickState),
       lookupStr st.w.net rf.URL = none → ipUpdateTick rf st = st) ∧
    (∀ (rf : RemoteFile) (st : IpTickState) (w1 : World),
       downloadFile st.w rf.URL rf.Path = Except.ok w1 →
       (IpLoadFromFile rf.Path w1 NetList.new).2.isSome = true →
       (ipUpdateTick rf st).l = st.l) ∧
    (∀ (rf : RemoteFile) (st : IpTickState),
       (ipUpdateTick rf st).l ≠ st.l →
       ∃ (w1 : World) (nl : NetList),
         downloadFile st.w rf.URL rf.Path = Except.ok w1 ∧
         IpLoadFromFile rf.Path w1 NetList.new = (nl, none) ∧
         ipUpdateTick rf st = ⟨w1, nl.Sort⟩) := by
  refine ⟨?_, ?_, ?_, ?_, ?_, ?_⟩
  · intro parse rf st h
    rw [domainUpdateTick, downloadFile, h]
  · intro parse rf st w1 hdl hload
    cases hl : LoadFile parse rf.Path w1 emptyMix with
    | error e => simp [domainUpdateTick, hdl, hl]
    | ok nm => rw [hl] at hload; cases hload
  · intro parse rf st hne
    cases hdl : downloadFile st.w rf.URL rf.Path with
    | error e => simp [domainUpdateTick, hdl] at hne
    | ok w1 =>
      cases hl : LoadFile parse rf.Path w1 emptyMix with
      | error e => simp [domainUpdateTick, hdl, hl] at hne
      | ok nm => exact ⟨w1, nm, rfl, hl, by simp [domainUpdateTick, hdl, hl]⟩
  · intro rf st h
    rw [ipUpdateTick, downloadFile, h]
  · intro rf st w1 hdl hload
    cases hl : IpLoadFromFile rf.Path w1 NetList.new with
    | mk nl e =>
      cases e with
      | none => rw [hl] at hload; cases hload
      | some err => simp [ipUpdateTick, hdl, hl]
  · intro rf st hne
    cases hdl : downloadFile st.w rf.URL rf.Path with
    | error e => simp [ipUpdateTick, hdl] at hne
    | ok w1 =>
      cases hl : IpLoadFromFile rf.Path w1 NetList.new with
      | mk nl e =>
        cases e with
        | none => exact ⟨w1, nl, rfl, hl, by simp [ipUpdateTick, hdl, hl]⟩
        | some err => simp [ipUpdateTick, hdl, hl] at hne

/-- Witness for C5: concrete ticks of both variants with a failing
download (empty network), a failing load (unparsable body), and a
successful refresh. -/
theorem C5_failed_tick_abandoned_witness :
    domainUpdateTick mixParse ⟨"u", "d/f", 1⟩ ⟨⟨[], [], []⟩, emptyMix⟩ =
      ⟨⟨[], [], []⟩, emptyMix⟩ ∧
    (domainUpdateTick mixParse ⟨"u", "d/f", 1⟩
      ⟨⟨[], [("u", ["#bad"])], []⟩, ⟨["a.com"], [], []⟩⟩).m = ⟨["a.com"], [], []⟩ ∧
    (∃ (w1 : World) (nm : MixMatcher),
      downloadFile (World.mk [] [("u", ["x.com"])] []) "u" "d/f" = Except.ok w1 ∧
      LoadFile mixParse "d/f" w1 emptyMix = Except.ok nm ∧
      domainUpdateTick mixParse ⟨"u", "d/f", 1⟩ ⟨⟨[], [("u", ["x.com"])], []⟩, emptyMix⟩ = ⟨w1, nm⟩) ∧
    ipUpdateTick ⟨"u", "d/f", 1⟩ ⟨⟨[], [], []⟩, NetList.new⟩ = ⟨⟨[], [], []⟩, NetList.new⟩ ∧
    (ipUpdateTick ⟨"u", "d/f", 1⟩
      ⟨⟨[], [("u", ["zz"])], []⟩, ⟨[⟨5, 32⟩]⟩⟩).l = ⟨[⟨5, 32⟩]⟩ ∧
    (∃ (w1 : World) (nl : NetList),
      downloadFile (World.mk [] [("u", ["1.2.3.4"])] []) "u" "d/f" = Except.ok w1 ∧
      IpLoadFromFile "d/f" w1 NetList.new = (nl, none) ∧
      ipUpdateTick ⟨"u", "d/f", 1⟩ ⟨⟨[], [("u", ["1.2.3.4"])], []⟩, NetList.new⟩ = ⟨w1, nl.Sort⟩) := by
  refine ⟨?_, ?_, ?_, ?_, ?_, ?_⟩
  · exact C5_failed_tick_abandoned.1 mixParse ⟨"u", "d/f", 1⟩ _ (by decide)
  · exact C5_failed_tick_abandoned.2.1 mixParse ⟨"u", "d/f", 1⟩ _
      ⟨[("d/f", ["#bad"])], [("u", ["#bad"])], []⟩ (by decide) (by decide)
  · exact C5_failed_tick_abandoned.2.2.1 mixParse ⟨"u", "d/f", 1⟩
      ⟨⟨[], [("u", ["x.com"])], []⟩, emptyMix⟩ (by decide)
  · exact C5_failed_tick_abandoned.2.2.2.1 ⟨"u", "d/f", 1⟩ _ (by decide)
  · exact C5_failed_tick_abandoned.2.2.2.2.1 ⟨"u", "d/f", 1⟩ _
      ⟨[("d/f", ["zz"])], [("u", ["zz"])], []⟩ (by decide) (by decide)
  · exact C5_failed_tick_abandoned.2.2.2.2.2 ⟨"u", "d/f", 1⟩
      ⟨⟨[], [("u", ["1.2.3.4"])], []⟩, NetList.new⟩ (by decide)

/-! ## Claims about the matcher group -/

/-- Claim C6.  For every matcher group and every key, Match returns true
exactly when some component of the group matches the key; the empty group
yields false; evaluation walks the components in order and stops at the
first hit: a matching head makes the result true whatever the tail is, and
a non-matching head hands the decision to the rest of the group. -/
theorem C6_group_match_is_short_circuit_or : ∀ (mg : List IMatcher) (x : Nat),
    (MatcherGroupMatch mg x = true ↔ ∃ m, m ∈ mg ∧ m.Match x = true) ∧
    (MatcherGroupMatch [] x = false) ∧
    (∀ (m : IMatcher) (rest : List IMatcher),
      m.Match x = true → MatcherGroupMatch (m :: rest) x = true) ∧
    (∀ (m : IMatcher) (rest : List IMatcher),
      m.Match x = false → MatcherGroupMatch (m :: rest) x = MatcherGroupMatch rest x) := by
  intro mg x
  refine ⟨?_, rfl, ?_, ?_⟩
  · rw [MGM_any, List.any_eq_true]
  · intro m rest h
    rw [MatcherGroupMatch, h]
    rfl
  · intro m rest h
    rw [MatcherGroupMatch, h]
    rfl

/-- Witness for C6: a concrete two-member group; the head hit
short-circuits, the head miss defers to the tail. -/
theorem C6_group_match_is_short_circuit_or_witness :
    (MatcherGroupMatch [IMatcher.list ⟨[⟨1, 32⟩]⟩] 1 = true ↔
      ∃ m, m ∈ [IMatcher.list ⟨[⟨1, 32⟩]⟩] ∧ IMatcher.Match m 1 = true) ∧
    MatcherGroupMatch [] 1 = false ∧
    MatcherGroupMatch (IMatcher.list ⟨[⟨1, 32⟩]⟩ :: [IMatcher.list ⟨[⟨2, 32⟩]⟩]) 1 = true ∧
    MatcherGroupMatch (IMatcher.list ⟨[⟨2, 32⟩]⟩ :: [IMatcher.list ⟨[⟨1, 32⟩]⟩]) 1 =
      MatcherGroupMatch [IMatcher.list ⟨[⟨1, 32⟩]⟩] 1 := by
  refine ⟨(C6_group_match_is_short_circuit_or _ 1).1,
    (C6_group_match_is_short_circuit_or [] 1).2.1, ?_, ?_⟩
  · exact (C6_group_match_is_short_circuit_or [] 1).2.2.1 _ _ (by decide)
  · exact (C6_group_match_is_short_circuit_or [] 1).2.2.2 _ _ (by decide)

/-- Claim C9.  Permuting the components of a matcher group does not change
any Match result. -/
theorem C9_group_match_order_independent :
    ∀ (mg mg' : List IMatcher) (x : Nat), mg.Perm mg' →
      MatcherGroupMatch mg x = MatcherGroupMatch mg' x := by
  intro mg mg' x hp
  have h1 : (MatcherGroupMatch mg x = true) ↔ (MatcherGroupMatch mg' x = true) := by
    rw [MGM_any, MGM_any, List.any_eq_true, List.any_eq_true]
    constructor
    · rintro ⟨m, hm, h⟩; exact ⟨m, hp.mem_iff.mp hm, h⟩
    · rintro ⟨m, hm, h⟩; exact ⟨m, hp.mem_iff.mpr hm, h⟩
  cases h : MatcherGroupMatch mg x
  · cases h' : MatcherGroupMatch mg' x
    · rfl
    · exact absurd (h1.mpr h') (by rw [h]; exact Bool.false_ne_true)
  · rw [h1.mp h]

/-- Witness for C9: swapping the two members of a concrete group leaves
the Match result unchanged. -/
theorem C9_group_match_order_independent_witness :
    MatcherGroupMatch [IMatcher.list ⟨[⟨1, 32⟩]⟩, IMatcher.list ⟨[⟨2, 32⟩]⟩] 2 =
      MatcherGroupMatch [IMatcher.list ⟨[⟨2, 32⟩]⟩, IMatcher.list ⟨[⟨1, 32⟩]⟩] 2 :=
  C9_group_match_order_independent _ _ 2 (List.Perm.swap _ _ [])

/-! ## Claims about configuration errors and IP parsing -/

/-- Claim C7.  When the inline rule expression at position i is invalid
(every expression before it being valid), loading fails with an error that
contains the index i, the literal text of the offending expression and the
underlying cause, in the exact fmt.Errorf format of the source; and the
whole construction fails, so the expressions before position i are not
kept as a partial success.  The four conjuncts cover the domain loader,
the IP loader, and the propagation through NewDomainSet and NewIPSet. -/
theorem C7_invalid_expression_error_names_index_and_text :
    (∀ (parse : DomainParse) (pre : List String) (exp : String)
       (suf : List String) (m m1 : MixMatcher) (c : String),
       LoadExps parse pre m = Except.ok m1 → parse exp = Except.error c →
       LoadExps parse (pre ++ exp :: suf) m =
         Except.error ("failed to load expression #" ++ toString pre.length ++
           " " ++ exp ++ ", " ++ c)) ∧
    (∀ (pre : List String) (s : String) (suf : List String)
       (l l1 : NetList) (c : String),
       LoadFromIPs pre l = Except.ok l1 → parseNetipPfx s = Except.error c →
       LoadFromIPs (pre ++ s :: suf) l =
         Except.error ("invalid ip #" ++ toString pre.length ++
           " " ++ s ++ ", " ++ c)) ∧
    (∀ (parse : DomainParse) (registry : List (String × (String → Bool)))
       (args : DomainArgs) (w : World) (pre : List String) (exp : String)
       (suf : List String) (m1 : MixMatcher) (c : String),
       args.Exps = pre ++ exp :: suf →
       LoadExps parse pre emptyMix = Except.ok m1 → parse exp = Except.error c →
       isOkE (NewDomainSet parse registry args w) = false) ∧
    (∀ (registry : List (String × (Nat → Bool))) (args : IpArgs) (w : World)
       (pre : List String) (s : String) (suf : List String)
       (l1 : NetList) (c : String),
       args.IPs = pre ++ s :: suf →
       LoadFromIPs pre NetList.new = Except.ok l1 → parseNetipPfx s = Except.error c →
       isOkE (NewIPSet registry args w) = false) := by
  have hd : ∀ (parse : DomainParse) (pre : List String) (exp : String)
      (suf : List String) (m m1 : MixMatcher) (c : String),
      LoadExps parse pre m = Except.ok m1 → parse exp = Except.error c →
      LoadExps parse (pre ++ exp :: suf) m =
        Except.error ("failed to load expression #" ++ toString pre.length ++
          " " ++ exp ++ ", " ++ c) := by
    intro parse pre exp suf m m1 c h hc
    rw [LoadExps] at h ⊢
    have := LoadExpsFrom_append parse pre 0 m m1 h exp suf c hc
    rw [this, Nat.zero_add]
  have hi : ∀ (pre : List String) (s : String) (suf : List String)
      (l l1 : NetList) (c : String),
      LoadFromIPs pre l = Except.ok l1 → parseNetipPfx s = Except.error c →
      LoadFromIPs (pre ++ s :: suf) l =
        Except.error ("invalid ip #" ++ toString pre.length ++
          " " ++ s ++ ", " ++ c) := by
    intro pre s suf l l1 c h hc
    rw [LoadFromIPs] at h ⊢
    have := LoadFromIPsFrom_append pre 0 l l1 h s suf c hc
    rw [this, Nat.zero_add]
  refine ⟨hd, hi, ?_, ?_⟩
  · intro parse registry args w pre exp suf m1 c hexps h hc
    have herr := hd parse pre exp suf emptyMix m1 c h hc
    rw [NewDomainSet, LoadExpsAndFiles, hexps, herr]
    rfl
  · intro registry args w pre s suf l1 c hips h hc
    have herr := hi pre s suf NetList.new l1 c h hc
    rw [NewIPSet, LoadFromIPsAndFiles, hips, herr]
    rfl

/-- Witness for C7: the invalid domain expression "#bad" at index 1 and
the invalid IP literal "zz" at index 1 produce the indexed error messages,
and both constructions fail. -/
theorem C7_invalid_expression_error_names_index_and_text_witness :
    LoadExps mixParse (["a.com"] ++ "#bad" :: ["c.com"]) emptyMix =
      Except.error ("failed to load expression #" ++ toString (["a.com"] : List String).length ++
        " " ++ "#bad" ++ ", " ++ "unsupported pattern: #bad") ∧
    LoadFromIPs (["1.2.3.4"] ++ "zz" :: []) NetList.new =
      Except.error ("invalid ip #" ++ toString (["1.2.3.4"] : List String).length ++
        " " ++ "zz" ++ ", " ++ "ParseAddr(zz): invalid") ∧
    isOkE (NewDomainSet mixParse [] ⟨["a.com", "#bad"], [], [], []⟩ ⟨[], [], []⟩) = false ∧
    isOkE (NewIPSet [] ⟨["zz"], [], [], []⟩ ⟨[], [], []⟩) = false := by
  refine ⟨?_, ?_, ?_, ?_⟩
  · exact C7_invalid_expression_error_names_index_and_text.1 mixParse ["a.com"] "#bad"
      ["c.com"] emptyMix ⟨["a.com"], [], []⟩ "unsupported pattern: #bad" (by decide) (by decide)
  · exact C7_invalid_expression_error_names_index_and_text.2.1 ["1.2.3.4"] "zz" []
      NetList.new ⟨[⟨16909060, 32⟩]⟩ "ParseAddr(zz): invalid" (by decide) (by decide)
  · exact C7_invalid_expression_error_names_index_and_text.2.2.1 mixParse []
      ⟨["a.com", "#bad"], [], [], []⟩ ⟨[], [], []⟩ ["a.com"] "#bad" [] ⟨["a.com"], [], []⟩
      "unsupported pattern: #bad" rfl (by decide) (by decide)
  · exact C7_invalid_expression_error_names_index_and_text.2.2.2 []
      ⟨["zz"], [], [], []⟩ ⟨[], [], []⟩ [] "zz" [] NetList.new
      "ParseAddr(zz): invalid" rfl (by decide) (by decide)

/-- Claim C8.  Parsing a bare IP address normalizes it to a full-length
host network before insertion: any slash-free string that parses as an
IPv4 address becomes a /32; the strings "198.51.100.7" and
"198.51.100.7/32" load to identical lists; and the list loaded from
"198.51.100.0/24" matches 198.51.100.7 and does not match 198.51.101.1. -/
theorem C8_bare_ip_normalized_to_host_route :
    (∀ (s : String) (a : Nat), s.data.contains '/' = false →
       parseIPv4 s = some a → parseNetipPfx s = Except.ok ⟨a, 32⟩) ∧
    parseNetipPfx "198.51.100.7" = parseNetipPfx "198.51.100.7/32" ∧
    LoadFromIPs ["198.51.100.7"] NetList.new =
      LoadFromIPs ["198.51.100.7/32"] NetList.new ∧
    LoadFromIPs ["198.51.100.0/24"] NetList.new =
      Except.ok ⟨[⟨3325256704, 24⟩]⟩ ∧
    NetList.Match ⟨[⟨3325256704, 24⟩]⟩ (((198 * 256 + 51) * 256 + 100) * 256 + 7) = true ∧
    NetList.Match ⟨[⟨3325256704, 24⟩]⟩ (((198 * 256 + 51) * 256 + 101) * 256 + 1) = false := by
  refine ⟨?_, by decide, by decide, by decide, by decide, by decide⟩
  intro s a hcon hp
  rw [parseNetipPfx, hcon]
  simp [hp]

/-- Witness for C8: the bare address "10.0.0.1" parses to the host network
10.0.0.1/32. -/
theorem C8_bare_ip_normalized_to_host_route_witness :
    ("10.0.0.1".data.contains '/' = false) ∧
    parseIPv4 "10.0.0.1" = some 167772161 ∧
    parseNetipPfx "10.0.0.1" = Except.ok ⟨167772161, 32⟩ :=
  ⟨by decide, by decide,
    C8_bare_ip_normalized_to_host_route.1 "10.0.0.1" 167772161 (by decide) (by decide)⟩

/-! ## Claim about the on-disk cache after an abandoned tick -/

/-- Claim C10.  In a refresh tick whose download succeeds but whose load of
the downloaded file fails, the local file has already been overwritten
with the fresh remote body when the tick is abandoned, while the live
matcher is left unchanged — so after such a tick the on-disk cache can
differ from the rule set being served.  The first two conjuncts state this
for the domain and the IP variant; the last conjunct is a concrete run in
which the tick leaves the unparsable body "#bad" on disk while the served
matcher still answers from the old rule "a.com". -/
theorem C10_abandoned_tick_leaves_fresh_file_on_disk :
    (∀ (parse : DomainParse) (rf : RemoteFile) (st : DomainTickState)
       (body : List String),
       lookupStr st.w.net rf.URL = some body →
       isOkE (LoadFile parse rf.Path
         { st.w with fs := fsWrite st.w.fs rf.Path body } emptyMix) = false →
       domainUpdateTick parse rf st =
         ⟨{ st.w with fs := fsWrite st.w.fs rf.Path body }, st.m⟩ ∧
       fsRead (domainUpdateTick parse rf st).w.fs rf.Path = some body) ∧
    (∀ (rf : RemoteFile) (st : IpTickState) (body : List String),
       lookupStr st.w.net rf.URL = some body →
       (IpLoadFromFile rf.Path
         { st.w with fs := fsWrite st.w.fs rf.Path body } NetList.new).2.isSome = true →
       ipUpdateTick rf st =
         ⟨{ st.w with fs := fsWrite st.w.fs rf.Path body }, st.l⟩ ∧
       fsRead (ipUpdateTick rf st).w.fs rf.Path = some body) ∧
    (domainUpdateTick mixParse ⟨"u", "d/f", 1⟩
        ⟨⟨[("d/f", ["a.com"])], [("u", ["#bad"])], []⟩, ⟨["a.com"], [], []⟩⟩ =
      ⟨⟨[("d/f", ["#bad"])], [("u", ["#bad"])], []⟩, ⟨["a.com"], [], []⟩⟩ ∧
     isOkE (LoadFromTextReader mixParse ["#bad"] emptyMix) = false ∧
     MixMatcher.Match eqTest ⟨["a.com"], [], []⟩ "a.com" = true) := by
  refine ⟨?_, ?_, by decide, by decide, by decide⟩
  · intro parse rf st body hnet hload
    have hdl : downloadFile st.w rf.URL rf.Path =
        Except.ok { st.w with fs := fsWrite st.w.fs rf.Path body } := by
      rw [downloadFile, hnet]
    cases hl : LoadFile parse rf.Path { st.w with fs := fsWrite st.w.fs rf.Path body } emptyMix with
    | error e =>
      refine ⟨by simp [domainUpdateTick, hdl, hl], ?_⟩
      simp [domainUpdateTick, hdl, hl, fsRead_fsWrite]
    | ok nm => rw [hl] at hload; cases hload
  · intro rf st body hnet hload
    have hdl : downloadFile st.w rf.URL rf.Path =
        Except.ok { st.w with fs := fsWrite st.w.fs rf.Path body } := by
      rw [downloadFile, hnet]
    cases hl : IpLoadFromFile rf.Path { st.w with fs := fsWrite st.w.fs rf.Path body } NetList.new with
    | mk nl e =>
      cases e with
      | none => rw [hl] at hload; cases hload
      | some err =>
        refine ⟨by simp [ipUpdateTick, hdl, hl], ?_⟩
        simp [ipUpdateTick, hdl, hl, fsRead_fsWrite]

/-- Witness for C10: concrete abandoned ticks of both variants, whose
downloads succeed and whose loads fail, leaving the fresh body on disk and
the matcher untouched. -/
theorem C10_abandoned_tick_leaves_fresh_file_on_disk_witness :
    (domainUpdateTick mixParse ⟨"u", "d/f", 1⟩
        ⟨⟨[], [("u", ["#bad"])], []⟩, ⟨["a.com"], [], []⟩⟩ =
      ⟨{ World.mk [] [("u", ["#bad"])] [] with
          fs := fsWrite [] "d/f" ["#bad"] }, ⟨["a.com"], [], []⟩⟩ ∧
     fsRead (domainUpdateTick mixParse ⟨"u", "d/f", 1⟩
        ⟨⟨[], [("u", ["#bad"])], []⟩, ⟨["a.com"], [], []⟩⟩).w.fs "d/f" = some ["#bad"]) ∧
    (ipUpdateTick ⟨"u", "d/f", 1⟩ ⟨⟨[], [("u", ["zz"])], []⟩, ⟨[⟨5, 32⟩]⟩⟩ =
      ⟨{ World.mk [] [("u", ["zz"])] [] with
          fs := fsWrite [] "d/f" ["zz"] }, ⟨[⟨5, 32⟩]⟩⟩ ∧
     fsRead (ipUpdateTick ⟨"u", "d/f", 1⟩
        ⟨⟨[], [("u", ["zz"])], []⟩, ⟨[⟨5, 32⟩]⟩⟩).w.fs "d/f" = some ["zz"]) := by
  refine ⟨?_, ?_⟩
  · exact C10_abandoned_tick_leaves_fresh_file_on_disk.1 mixParse ⟨"u", "d/f", 1⟩
      ⟨⟨[], [("u", ["#bad"])], []⟩, ⟨["a.com"], [], []⟩⟩ ["#bad"] (by decide) (by decide)
  · exact C10_abandoned_tick_leaves_fresh_file_on_disk.2.1 ⟨"u", "d/f", 1⟩
      ⟨⟨[], [("u", ["zz"])], []⟩, ⟨[⟨5, 32⟩]⟩⟩ ["zz"] (by decide) (by decide)
